import Mathlib

/-!
# DailyNews — verification of the article workflow, feeds and notifications

A shallow embedding of the core logic of the DailyNews Django application
(`DailyNews_App`): the article status workflow, role-gated mutation views,
the subscription toggles, the subscription-based feed queries, and the
post-save publication fan-out signal.

Conventions of the embedding:
* database rows are values; primary keys are `Nat`;
* the ORM state touched by an operation is passed in explicitly
  (lists of rows) and the operation returns the rows it would write;
* `timezone.now()` is an explicit `now : Nat` parameter;
* Django form validation (`form.is_valid()`) is an explicit Boolean
  parameter, since the validated fields (title/body/publisher/image) play
  no role in the status logic;
* the effect of a view is a `ViewOutcome`: `denied` (permission check failed,
  nothing written), `noSave` (rendered without writing), `deleted`, or
  `saved a` (the row written after `Article.save`).
-/

namespace DailyNews

/-- Roles from `USER_ROLES` in `models.py`. -/
inductive Role where
  | READER
  | JOURNALIST
  | EDITOR
deriving DecidableEq, Repr

/-- Workflow states from `Article.STATUS_CHOICES` in `models.py` (lines 205–210). -/
inductive Status where
  | DRAFT
  | AWAITING_REVIEW
  | REJECTED
  | PUBLISHED
deriving DecidableEq, Repr

/-- The fields of `CustomUser` relevant to the workflow: primary key, role,
and the primary keys of the publishers the user is affiliated with
(`user.publishers`, in queryset order so that `.first()` is the head). -/
structure User where
  id : Nat
  role : Role
  publishers : List Nat
deriving DecidableEq, Repr

/-- The fields of `Article` relevant to the workflow (from `models.py`).
`author` and `editor` are user primary keys, `publisher` a publisher
primary key (`none` = NULL), `publication_date` a timestamp (`none` = NULL). -/
structure Article where
  id : Nat
  title : String
  body : String
  author : Nat
  publisher : Option Nat
  editor : Option Nat
  status : Status
  is_approved : Bool
  publication_date : Option Nat
deriving DecidableEq, Repr

/-- Model of `Article.save` from `models.py` (lines 241–260): if the status is
PUBLISHED, `is_approved` becomes `True` and `publication_date` is set to the
current time when it is not already set; otherwise `is_approved` becomes
`False`. -/
def Article.save (a : Article) (now : Nat) : Article :=
  if a.status = Status.PUBLISHED then
    { a with
      is_approved := true
      publication_date :=
        match a.publication_date with
        | none => some now
        | some d => some d }
  else
    { a with is_approved := false }

/-- Result of a view request in the embedding. -/
inductive ViewOutcome where
  | denied
  | noSave
  | deleted
  | saved (a : Article)
deriving DecidableEq, Repr

/-- The fresh article built by `article_create_edit` when no `pk` is given:
`Article(author=request.user, publisher=None)` with model defaults
(status DRAFT, `is_approved=False`, dates NULL). -/
def newArticle (u : User) : Article :=
  { id := 0
    title := ""
    body := ""
    author := u.id
    publisher := none
    editor := none
    status := Status.DRAFT
    is_approved := false
    publication_date := none }

/-- The status/publisher decision of the POST branch of
`article_create_edit` (`views.py` lines 543–577): `publish_independent`
gives PUBLISHED with no publisher; `submit_publisher` gives
AWAITING_REVIEW with the selected affiliated publisher, falling back to
DRAFT with `article_publisher = None` when the id is missing or not among
the affiliated publishers of the user; any other action keeps the existing
publisher and gives DRAFT. -/
def journalistDecision (u : User) (article : Article) (action : String)
    (publisher_to_submit : Option Nat) : Status × Option Nat :=
  if action = "publish_independent" then
    (Status.PUBLISHED, none)
  else if action = "submit_publisher" then
    match publisher_to_submit with
    | some pid =>
        if u.publishers.contains pid then
          (Status.AWAITING_REVIEW, some pid)
        else
          (Status.DRAFT, none)
    | none => (Status.DRAFT, none)
  else
    (Status.DRAFT, article.publisher)

/-- Statuses a journalist may not edit from (`views.py` line 529,
`FORBIDDEN_EDIT_STATUSES`). -/
def forbiddenEditStatuses : List Status :=
  [Status.PUBLISHED, Status.REJECTED, Status.AWAITING_REVIEW]

/-- The permission gates of `article_create_edit` (`views.py` lines
507–536): the `@user_passes_test(is_journalist)` decorator, and — when a
`pk` was given — the author check (line 524) and the forbidden-status
check (line 531), all of which redirect before anything is written. -/
def journalistGateDenies (u : User) (existing : Option Article) : Bool :=
  u.role != Role.JOURNALIST ||
    (match existing with
     | some a => a.author != u.id || forbiddenEditStatuses.contains a.status
     | none => false)

/-- The row written by a successful POST of `article_create_edit`
(`views.py` lines 583–595): status and publisher from the action decision,
author forced to the requesting user, `publication_date` stamped when
publishing, then `Article.save`. -/
def journalistSavedArticle (u : User) (existing : Option Article)
    (action : String) (publisher_to_submit : Option Nat) (now : Nat) :
    Article :=
  let article := match existing with
    | some a => a
    | none => newArticle u
  let dec := journalistDecision u article action publisher_to_submit
  let a1 := { article with
              status := dec.1
              publisher := dec.2
              author := u.id }
  let a2 := if dec.1 = Status.PUBLISHED then
              { a1 with publication_date := some now }
            else a1
  a2.save now

/-- Model of `article_create_edit` from `views.py` (lines 507–632), POST branch.
`existing = some a` corresponds to a request with `pk` resolving to
article `a`; `existing = none` to the create URL. The permission gates run
first; on a valid form the decided row is saved, otherwise the form is
re-rendered without saving. -/
def article_create_edit (u : User) (existing : Option Article)
    (action : String) (publisher_to_submit : Option Nat)
    (formValid : Bool) (now : Nat) : ViewOutcome :=
  if journalistGateDenies u existing then ViewOutcome.denied
  else if formValid then
    ViewOutcome.saved
      (journalistSavedArticle u existing action publisher_to_submit now)
  else ViewOutcome.noSave

/-- The access-control test of `article_editor` (`views.py` line 736):
`article.publisher not in request.user.publishers.all()`. A NULL publisher
is never a member of the queryset. -/
def publisherAffiliated (pub : Option Nat) (pubs : List Nat) : Bool :=
  match pub with
  | some p => pubs.contains p
  | none => false

/-- The permission gates of `article_editor` (`views.py` lines 729–738):
the `@user_passes_test(is_editor)` decorator, then the affiliation
check, both returning before anything is written. -/
def editorGateDenies (u : User) (article : Article) : Bool :=
  u.role != Role.EDITOR ||
    !(publisherAffiliated article.publisher u.publishers)

/-- Model of `article_editor` from `views.py` (lines 729–802), POST branch. The
permission gates run first. `delete` deletes directly. On a valid form
the editor is recorded; the `publish` action sets PUBLISHED, stamps
`publication_date`, and when the article has no publisher falls back to
the first affiliated publisher of the editor, aborting without saving when
there is none. Any other action saves content edits with the status
unchanged. -/
def article_editor (u : User) (article : Article) (action : String)
    (formValid : Bool) (now : Nat) : ViewOutcome :=
  if editorGateDenies u article then ViewOutcome.denied
  else if action = "delete" then ViewOutcome.deleted
  else if formValid then
    let a1 := { article with editor := some u.id }
    if action = "publish" then
      let a2 := { a1 with
                  status := Status.PUBLISHED
                  publication_date := some now }
      match a2.publisher with
      | some _ => ViewOutcome.saved (a2.save now)
      | none =>
          match u.publishers.head? with
          | some p => ViewOutcome.saved ({ a2 with publisher := some p }.save now)
          | none => ViewOutcome.noSave
    else
      ViewOutcome.saved (a1.save now)
  else ViewOutcome.noSave

/-! ## Subscriptions (`models.py` lines 144–181, `views.py`)

A `JournalistSubscription` row is a `(reader, journalist)` pair of user
primary keys, a `PublisherSubscription` row a `(reader, publisher)` pair;
`date_subscribed` plays no role in the claims. The subscription table is a
list of rows; `unique_together` means the list is duplicate-free, which is
stated and preserved as an invariant rather than assumed. -/

/-- The journalist branch of `toggle_subscription` (`views.py` lines
156–211): after the role guard (a non-JOURNALIST target aborts),
`get_or_create` either inserts the pair or, when the row already exists,
deletes it. Under `unique_together` at most one row matches, so deletion
removes every matching row. -/
def toggle_subscription_journalist (subsJ : List (Nat × Nat))
    (reader : Nat) (journalist : Nat) (journalistRole : Role) :
    List (Nat × Nat) :=
  if journalistRole ≠ Role.JOURNALIST then subsJ
  else if (reader, journalist) ∈ subsJ then
    subsJ.filter (fun s => s ≠ (reader, journalist))
  else
    (reader, journalist) :: subsJ

/-- The publisher branch of `toggle_subscription` (`views.py` lines
194–205): `get_or_create` then delete-on-existing, with no role guard
(publishers are their own table). -/
def toggle_subscription_publisher (subsP : List (Nat × Nat))
    (reader : Nat) (publisher : Nat) : List (Nat × Nat) :=
  if (reader, publisher) ∈ subsP then
    subsP.filter (fun s => s ≠ (reader, publisher))
  else
    (reader, publisher) :: subsP

/-- Model of `subscribe_journalist` (`views.py` lines 806–827):
a `get_object_or_404` lookup keyed on the JOURNALIST role aborts (404)
unless the target role is JOURNALIST; then the same
`get_or_create`/delete toggle as `toggle_subscription`. -/
def subscribe_journalist (subsJ : List (Nat × Nat))
    (reader : Nat) (journalist : Nat) (journalistRole : Role) :
    List (Nat × Nat) :=
  if journalistRole ≠ Role.JOURNALIST then subsJ
  else if (reader, journalist) ∈ subsJ then
    subsJ.filter (fun s => s ≠ (reader, journalist))
  else
    (reader, journalist) :: subsJ

/-- Model of `subscribe_publisher` (`views.py` lines 830–849). -/
def subscribe_publisher (subsP : List (Nat × Nat))
    (reader : Nat) (publisher : Nat) : List (Nat × Nat) :=
  if (reader, publisher) ∈ subsP then
    subsP.filter (fun s => s ≠ (reader, publisher))
  else
    (reader, publisher) :: subsP

/-! ## Feed queries (`views.py` `reader_home`, `api_views.py`) -/

/-- Numeric key for the descending `order_by` on `publication_date`: articles are compared
by publication date, a NULL date sorting after every concrete one in
descending order. -/
def pubKey (a : Article) : Nat :=
  match a.publication_date with
  | some d => d + 1
  | none => 0

/-- The descending publication-date order used by
the descending `order_by` on `publication_date`. -/
def feedOrder (a b : Article) : Prop :=
  pubKey b ≤ pubKey a

instance : DecidableRel feedOrder := fun a b =>
  inferInstanceAs (Decidable (pubKey b ≤ pubKey a))

instance : IsTotal Article feedOrder :=
  ⟨fun a b => Nat.le_total (pubKey b) (pubKey a)⟩

instance : IsTrans Article feedOrder :=
  ⟨fun _ _ _ hab hbc => le_trans hbc hab⟩

/-- The filter of the subscribed feed in `reader_home` (`views.py` lines
344–347): status PUBLISHED and
`Q(author__pk__in=subscribed_journalists) |
Q(publisher_id__in=subscribed_publishers)`. A NULL `publisher_id` never
matches an `IN` clause. -/
def subscribedMatch (subscribed_journalists subscribed_publishers : List Nat)
    (a : Article) : Bool :=
  a.status = Status.PUBLISHED &&
    (subscribed_journalists.contains a.author ||
      (match a.publisher with
       | some p => subscribed_publishers.contains p
       | none => false))

/-- The `subscribed_feed` queryset of `reader_home` (`views.py` lines
344–347): the subscription-matching published articles ordered by
publication date descending. -/
def subscribed_feed (articles : List Article)
    (subscribed_journalists subscribed_publishers : List Nat) :
    List Article :=
  List.insertionSort feedOrder
    (articles.filter (subscribedMatch subscribed_journalists
      subscribed_publishers))

/-- The filter of `ArticleSubscriptionAPIView.get_queryset`
(`api_views.py` lines 46–49): status PUBLISHED and
`Q(author__pk__in=subscribed_journalists) |
Q(publisher__pk__in=subscribed_publishers)`. -/
def apiMatch (subscribed_journalists subscribed_publishers : List Nat)
    (a : Article) : Bool :=
  a.status = Status.PUBLISHED &&
    (subscribed_journalists.contains a.author ||
      (match a.publisher with
       | some p => subscribed_publishers.contains p
       | none => false))

/-- Model of `ArticleSubscriptionAPIView.get_queryset` (`api_views.py` lines
30–51). -/
def api_get_queryset (articles : List Article)
    (subscribed_journalists subscribed_publishers : List Nat) :
    List Article :=
  List.insertionSort feedOrder
    (articles.filter (apiMatch subscribed_journalists
      subscribed_publishers))

/-! ## Publication fan-out (`signals.py` lines 123–237) -/

/-- Emails of the readers subscribed to the author of the article
(`signals.py` lines 150–152), through an email assignment for user
primary keys. -/
def journalistSubscriberEmails (subsJ : List (Nat × Nat))
    (email : Nat → String) (authorId : Nat) : List String :=
  (subsJ.filter (fun s => s.2 = authorId)).map (fun s => email s.1)

/-- Emails of the readers subscribed to the publisher of the article
(`signals.py` lines 155–157). `filter(publisher=None)` matches no row of
the non-nullable `PublisherSubscription.publisher` column. -/
def publisherSubscriberEmails (subsP : List (Nat × Nat))
    (email : Nat → String) (pub : Option Nat) : List String :=
  match pub with
  | some p => (subsP.filter (fun s => s.2 = p)).map (fun s => email s.1)
  | none => []

/-- The de-duplicated recipient list of
`handle_article_publication_and_sharing` (`signals.py` lines 160–161):
`set(list(journalist_subscribers) + list(publisher_subscribers))`. -/
def recipientList (subsJ subsP : List (Nat × Nat))
    (email : Nat → String) (a : Article) : List String :=
  (journalistSubscriberEmails subsJ email a.author ++
    publisherSubscriberEmails subsP email a.publisher).dedup

/-- The observable effect of the post-save signal: the list of addresses
that receive one mail tuple each, whether a POST to the X API is made,
and whether the handler raised an uncaught AttributeError (in which case
nothing was sent). -/
structure FanoutResult where
  emails : List String
  socialPosted : Bool
  raisedAttributeError : Bool := false
deriving DecidableEq, Repr

/-- Model of `handle_article_publication_and_sharing` (`signals.py` lines
123–237): runs on `post_save` of an `Article`; proceeds only when
`not created` and a PUBLISHED instance status. Then, for an instance
with a publisher, one mail tuple per de-duplicated recipient is sent and
a POST to the X API is made exactly when `settings.X_USER_ACCESS_TOKEN`
is configured. For an instance with publisher NULL the handler
dereferences `instance.publisher.name` and raises AttributeError before
sending anything: at line 176 while building the message (whenever the
recipient list is non-empty), or at line 208 while building the tweet
text (recipient list empty but credentials configured — the `except`
clause at line 235 catches only `requests.exceptions.RequestException`);
only with no recipients and no credentials does it return without
sending and without raising. -/
def handle_article_publication_and_sharing (created : Bool) (a : Article)
    (subsJ subsP : List (Nat × Nat)) (email : Nat → String)
    (credentialsConfigured : Bool) : FanoutResult :=
  if created = false ∧ a.status = Status.PUBLISHED then
    match a.publisher with
    | some _ =>
        { emails := recipientList subsJ subsP email a
          socialPosted := credentialsConfigured }
    | none =>
        if recipientList subsJ subsP email a ≠ [] ∨
            credentialsConfigured = true then
          { emails := [], socialPosted := false,
            raisedAttributeError := true }
        else
          { emails := [], socialPosted := false }
  else
    { emails := [], socialPosted := false }

/-- The full journalist mutation pipeline: the view runs, and when a row
was written the `post_save` signal fires on the saved instance with
`created` true exactly when no `pk` was given (a fresh row). -/
def createEditWithFanout (u : User) (existing : Option Article)
    (action : String) (publisher_to_submit : Option Nat)
    (formValid : Bool) (now : Nat) (subsJ subsP : List (Nat × Nat))
    (email : Nat → String) (credentialsConfigured : Bool) :
    ViewOutcome × FanoutResult :=
  match article_create_edit u existing action publisher_to_submit
      formValid now with
  | ViewOutcome.saved a =>
      (ViewOutcome.saved a,
       handle_article_publication_and_sharing existing.isNone a
         subsJ subsP email credentialsConfigured)
  | o => (o, { emails := [], socialPosted := false })

/-- The full editor mutation pipeline: `article_editor` then the
`post_save` signal on the saved instance (`created = false`: the article
already exists). -/
def editorWithFanout (u : User) (article : Article) (action : String)
    (formValid : Bool) (now : Nat) (subsJ subsP : List (Nat × Nat))
    (email : Nat → String) (credentialsConfigured : Bool) :
    ViewOutcome × FanoutResult :=
  match article_editor u article action formValid now with
  | ViewOutcome.saved a =>
      (ViewOutcome.saved a,
       handle_article_publication_and_sharing false a
         subsJ subsP email credentialsConfigured)
  | o => (o, { emails := [], socialPosted := false })

/-- Articles reachable through the mutating views of the application: a row
written by `article_create_edit` on creation, or obtained from a
reachable row by a journalist edit or an editor review. -/
inductive Reachable : Article → Prop where
  | create (u : User) (action : String) (pts : Option Nat) (now : Nat)
      (a : Article)
      (h : article_create_edit u none action pts true now =
        ViewOutcome.saved a) : Reachable a
  | jedit (u : User) (old : Article) (action : String) (pts : Option Nat)
      (now : Nat) (a : Article) (hold : Reachable old)
      (h : article_create_edit u (some old) action pts true now =
        ViewOutcome.saved a) : Reachable a
  | eedit (u : User) (old : Article) (action : String) (now : Nat)
      (a : Article) (hold : Reachable old)
      (h : article_editor u old action true now = ViewOutcome.saved a) :
      Reachable a

/-! ## Helper lemmas -/

theorem Article.save_status (a : Article) (now : Nat) :
    (a.save now).status = a.status := by
  unfold Article.save
  split <;> rfl

theorem Article.save_author (a : Article) (now : Nat) :
    (a.save now).author = a.author := by
  unfold Article.save
  split <;> rfl

theorem Article.save_publisher (a : Article) (now : Nat) :
    (a.save now).publisher = a.publisher := by
  unfold Article.save
  split <;> rfl

theorem Article.save_editor (a : Article) (now : Nat) :
    (a.save now).editor = a.editor := by
  unfold Article.save
  split <;> rfl

theorem journalistDecision_status (u : User) (article : Article)
    (action : String) (pts : Option Nat) :
    (journalistDecision u article action pts).1 = Status.DRAFT ∨
      (journalistDecision u article action pts).1 = Status.AWAITING_REVIEW ∨
      (journalistDecision u article action pts).1 = Status.PUBLISHED := by
  unfold journalistDecision
  split
  · exact Or.inr (Or.inr rfl)
  · split
    · split
      · split
        · exact Or.inr (Or.inl rfl)
        · exact Or.inl rfl
      · exact Or.inl rfl
    · exact Or.inl rfl

/-- The journalist permission gate lets a request through exactly for a
journalist acting on a fresh article or on their own DRAFT. -/
theorem journalistGateDenies_eq_false (u : User) (existing : Option Article) :
    journalistGateDenies u existing = false ↔
      u.role = Role.JOURNALIST ∧
      ∀ old, existing = some old →
        old.author = u.id ∧ old.status = Status.DRAFT := by
  unfold journalistGateDenies
  cases existing with
  | none =>
      simp only [Bool.or_false, bne_eq_false_iff_eq]
      constructor
      · intro h
        exact ⟨h, by intro old hold; cases hold⟩
      · intro h
        exact h.1
  | some old =>
      simp only [Bool.or_eq_false_iff, bne_eq_false_iff_eq,
        forbiddenEditStatuses]
      constructor
      · rintro ⟨hrole, hauthor, hstatus⟩
        refine ⟨hrole, ?_⟩
        intro o ho
        injection ho with ho
        subst ho
        refine ⟨hauthor, ?_⟩
        cases hs : old.status with
        | DRAFT => rfl
        | AWAITING_REVIEW => rw [hs] at hstatus; exact absurd hstatus (by decide)
        | REJECTED => rw [hs] at hstatus; exact absurd hstatus (by decide)
        | PUBLISHED => rw [hs] at hstatus; exact absurd hstatus (by decide)
      · rintro ⟨hrole, h⟩
        obtain ⟨hauthor, hdraft⟩ := h old rfl
        refine ⟨hrole, hauthor, ?_⟩
        rw [hdraft]
        decide

/-- Shape of a successful journalist save: the permission gates passed,
the form was valid, and the written row is the decided article. -/
theorem create_edit_saved_iff (u : User) (existing : Option Article)
    (action : String) (pts : Option Nat) (fv : Bool) (now : Nat)
    (a : Article) :
    article_create_edit u existing action pts fv now = ViewOutcome.saved a ↔
      journalistGateDenies u existing = false ∧ fv = true ∧
      a = journalistSavedArticle u existing action pts now := by
  unfold article_create_edit
  constructor
  · intro h
    split at h
    · exact absurd h (by simp)
    · next hgate =>
      split at h
      · next hfv =>
        exact ⟨by simpa using hgate, hfv, by
          simpa using h.symm⟩
      · exact absurd h (by simp)
  · rintro ⟨hgate, hfv, ha⟩
    rw [if_neg (by simp [hgate]), if_pos hfv]
    exact congrArg ViewOutcome.saved ha.symm

/-- The editor permission gate lets a request through exactly for an
editor affiliated with the (non-NULL) publisher of the article. -/
theorem editorGateDenies_eq_false (u : User) (article : Article) :
    editorGateDenies u article = false ↔
      u.role = Role.EDITOR ∧
      ∃ p, article.publisher = some p ∧ p ∈ u.publishers := by
  unfold editorGateDenies publisherAffiliated
  cases hp : article.publisher with
  | none => simp
  | some p =>
      constructor
      · intro hh
        simp only [Bool.or_eq_false_iff, bne_eq_false_iff_eq,
          Bool.not_eq_false] at hh
        exact ⟨hh.1, p, rfl, by simpa using hh.2⟩
      · rintro ⟨hrole, q, hq, hmem⟩
        injection hq with hq
        subst hq
        simp only [Bool.or_eq_false_iff, bne_eq_false_iff_eq,
          Bool.not_eq_false]
        exact ⟨hrole, by simpa using hmem⟩

/-- Shape of a successful editor save. -/
theorem editor_saved_iff (u : User) (article : Article) (action : String)
    (fv : Bool) (now : Nat) (a : Article) :
    article_editor u article action fv now = ViewOutcome.saved a ↔
      editorGateDenies u article = false ∧
      action ≠ "delete" ∧ fv = true ∧
      ((action = "publish" ∧
          a = ({ article with
                 editor := some u.id
                 status := Status.PUBLISHED
                 publication_date := some now } : Article).save now) ∨
        (action ≠ "publish" ∧
          a = ({ article with editor := some u.id } : Article).save now)) := by
  unfold article_editor
  constructor
  · intro h
    split at h
    · exact absurd h (by simp)
    · next hgate =>
      have hgate0 : editorGateDenies u article = false := by
        simpa using hgate
      split at h
      · exact absurd h (by simp)
      · next hdel =>
        split at h
        · next hfv =>
          refine ⟨hgate0, hdel, hfv, ?_⟩
          obtain ⟨-, p, hp, -⟩ :=
            (editorGateDenies_eq_false u article).mp hgate0
          by_cases hpub : action = "publish"
          · rw [if_pos hpub] at h
            refine Or.inl ⟨hpub, ?_⟩
            rw [hp] at h ⊢
            simpa using h.symm
          · rw [if_neg hpub] at h
            exact Or.inr ⟨hpub, by simpa using h.symm⟩
        · exact absurd h (by simp)
  · rintro ⟨hgate, hdel, hfv, hcase⟩
    rw [if_neg (by simp [hgate]), if_neg hdel, if_pos hfv]
    obtain ⟨-, p, hp, -⟩ := (editorGateDenies_eq_false u article).mp hgate
    rcases hcase with ⟨hpub, ha⟩ | ⟨hpub, ha⟩
    · rw [hp] at ha
      rw [if_pos hpub, hp]
      exact congrArg ViewOutcome.saved ha.symm
    · rw [if_neg hpub]
      exact congrArg ViewOutcome.saved ha.symm

/-- The base article a journalist request operates on. -/
def baseArticle (u : User) (existing : Option Article) : Article :=
  match existing with
  | some a => a
  | none => newArticle u

theorem journalistSavedArticle_status (u : User) (existing : Option Article)
    (action : String) (pts : Option Nat) (now : Nat) :
    (journalistSavedArticle u existing action pts now).status =
      (journalistDecision u (baseArticle u existing) action pts).1 := by
  unfold journalistSavedArticle baseArticle
  rw [Article.save_status]
  split <;> rfl

theorem journalistSavedArticle_author (u : User) (existing : Option Article)
    (action : String) (pts : Option Nat) (now : Nat) :
    (journalistSavedArticle u existing action pts now).author = u.id := by
  unfold journalistSavedArticle
  rw [Article.save_author]
  split <;> rfl

theorem journalistSavedArticle_publisher (u : User)
    (existing : Option Article) (action : String) (pts : Option Nat)
    (now : Nat) :
    (journalistSavedArticle u existing action pts now).publisher =
      (journalistDecision u (baseArticle u existing) action pts).2 := by
  unfold journalistSavedArticle baseArticle
  rw [Article.save_publisher]
  split <;> rfl

/-- The journalist decision yields PUBLISHED exactly for the
`publish_independent` action, and then assigns no publisher. -/
theorem journalistDecision_published_iff (u : User) (article : Article)
    (action : String) (pts : Option Nat) :
    (journalistDecision u article action pts).1 = Status.PUBLISHED ↔
      action = "publish_independent" := by
  unfold journalistDecision
  split
  · next hact => simp [hact]
  · next hact =>
    split
    · split
      · split <;> simp [hact]
      · simp [hact]
    · simp [hact]

theorem journalistDecision_published_publisher (u : User) (article : Article)
    (pts : Option Nat) :
    (journalistDecision u article "publish_independent" pts).2 = none := by
  unfold journalistDecision
  rfl

/-- Any saved journalist result has a workflow status other than
REJECTED. -/
theorem create_edit_saved_status (u : User) (existing : Option Article)
    (action : String) (pts : Option Nat) (fv : Bool) (now : Nat)
    (a : Article)
    (h : article_create_edit u existing action pts fv now =
      ViewOutcome.saved a) :
    a.status = Status.DRAFT ∨ a.status = Status.AWAITING_REVIEW ∨
      a.status = Status.PUBLISHED := by
  obtain ⟨-, -, ha⟩ := (create_edit_saved_iff u existing action pts fv now a).mp h
  rw [ha, journalistSavedArticle_status]
  exact journalistDecision_status u (baseArticle u existing) action pts

/-- An editor save either keeps the status or sets PUBLISHED. -/
theorem editor_saved_status (u : User) (article : Article) (action : String)
    (fv : Bool) (now : Nat) (a : Article)
    (h : article_editor u article action fv now = ViewOutcome.saved a) :
    a.status = article.status ∨ a.status = Status.PUBLISHED := by
  obtain ⟨-, -, -, hcase⟩ := (editor_saved_iff u article action fv now a).mp h
  rcases hcase with ⟨-, ha⟩ | ⟨-, ha⟩
  · right
    rw [ha, Article.save_status]
  · left
    rw [ha, Article.save_status]

/-! ## Concrete fixtures -/

/-- A journalist affiliated with publisher 7. -/
def sampleJournalist : User :=
  { id := 1, role := Role.JOURNALIST, publishers := [7] }

/-- An editor affiliated with publisher 7. -/
def sampleEditor : User :=
  { id := 4, role := Role.EDITOR, publishers := [7] }

/-- A DRAFT article authored by `sampleJournalist`, no publisher. -/
def sampleDraft : Article :=
  { id := 3, title := "Tides", body := "text", author := 1,
    publisher := none, editor := none, status := Status.DRAFT,
    is_approved := false, publication_date := none }

/-- The article `sampleDraft` after the journalist publishes it independently at
time 5. -/
def sampleIndependentPublished : Article :=
  { sampleDraft with
    status := Status.PUBLISHED
    is_approved := true
    publication_date := some 5 }

/-- The fresh DRAFT row written by a create request with the `draft`
action. -/
def sampleCreatedDraft : Article :=
  { id := 0, title := "", body := "", author := 1, publisher := none,
    editor := none, status := Status.DRAFT, is_approved := false,
    publication_date := none }

/-- An article submitted to publisher 7, awaiting review. -/
def sampleAwaiting : Article :=
  { id := 8, title := "Game", body := "text", author := 1,
    publisher := some 7, editor := none, status := Status.AWAITING_REVIEW,
    is_approved := false, publication_date := none }

/-- A constant email assignment for fixtures. -/
def sampleEmailOf : Nat → String := fun _ => "reader@example.org"

/-! ## Claims -/

/-- C1 counterexample: the claim says an article status moves from DRAFT
only to AWAITING_REVIEW and reaches PUBLISHED only from AWAITING_REVIEW.
But the `publish_independent` action of a journalist on their own DRAFT
article saves it directly as PUBLISHED (`views.py` lines 550–552). -/
theorem c1_counterexample :
    sampleDraft.status = Status.DRAFT ∧
    article_create_edit sampleJournalist (some sampleDraft)
        "publish_independent" none true 5 =
      ViewOutcome.saved sampleIndependentPublished ∧
    sampleIndependentPublished.status = Status.PUBLISHED := by
  decide

/-- C1 (amended): a journalist edit operates only on DRAFT articles
(or creates a new one) and leaves the status DRAFT, AWAITING_REVIEW or
PUBLISHED — so DRAFT moves to AWAITING_REVIEW or directly to PUBLISHED —
and an editor review either keeps the status or sets PUBLISHED; no
operation moves an article into REJECTED. -/
theorem c1_amended_status_transitions :
    (∀ (u : User) (existing : Option Article) (action : String)
        (pts : Option Nat) (fv : Bool) (now : Nat) (a : Article),
      article_create_edit u existing action pts fv now =
          ViewOutcome.saved a →
        (∀ old, existing = some old → old.status = Status.DRAFT) ∧
        (a.status = Status.DRAFT ∨ a.status = Status.AWAITING_REVIEW ∨
          a.status = Status.PUBLISHED)) ∧
    (∀ (u : User) (article : Article) (action : String) (fv : Bool)
        (now : Nat) (a : Article),
      article_editor u article action fv now = ViewOutcome.saved a →
        a.status = article.status ∨ a.status = Status.PUBLISHED) := by
  constructor
  · intro u existing action pts fv now a h
    obtain ⟨hgate, -, -⟩ :=
      (create_edit_saved_iff u existing action pts fv now a).mp h
    obtain ⟨-, hold⟩ := (journalistGateDenies_eq_false u existing).mp hgate
    exact ⟨fun old ho => (hold old ho).2,
      create_edit_saved_status u existing action pts fv now a h⟩
  · intro u article action fv now a h
    exact editor_saved_status u article action fv now a h

/-- Witness for C1 (amended) at the independent-publish fixture. -/
theorem c1_amended_witness :
    sampleIndependentPublished.status = Status.DRAFT ∨
    sampleIndependentPublished.status = Status.AWAITING_REVIEW ∨
    sampleIndependentPublished.status = Status.PUBLISHED :=
  (c1_amended_status_transitions.1 sampleJournalist (some sampleDraft)
    "publish_independent" none true 5 sampleIndependentPublished
    (by decide)).2

/-- C2 counterexample: the claim says only an EDITOR can produce a
PUBLISHED article. But the acting user here has role JOURNALIST and the
saved article is PUBLISHED (`views.py` lines 550–552). -/
theorem c2_counterexample :
    sampleJournalist.role = Role.JOURNALIST ∧
    sampleJournalist.role ≠ Role.EDITOR ∧
    article_create_edit sampleJournalist (some sampleDraft)
        "publish_independent" none true 5 =
      ViewOutcome.saved sampleIndependentPublished ∧
    sampleIndependentPublished.status = Status.PUBLISHED := by
  decide

/-- C2 (amended): the status of an article is set to PUBLISHED either by an
editor using the `publish` action while reviewing (and the editor is recorded on
the article), or by a journalist independently publishing their own
article, which is saved with no publisher. -/
theorem c2_amended_publish_authority :
    (∀ (u : User) (existing : Option Article) (action : String)
        (pts : Option Nat) (fv : Bool) (now : Nat) (a : Article),
      article_create_edit u existing action pts fv now =
          ViewOutcome.saved a →
      a.status = Status.PUBLISHED →
        u.role = Role.JOURNALIST ∧ a.author = u.id ∧ a.publisher = none ∧
        action = "publish_independent") ∧
    (∀ (u : User) (article : Article) (action : String) (fv : Bool)
        (now : Nat) (a : Article),
      article_editor u article action fv now = ViewOutcome.saved a →
      article.status ≠ Status.PUBLISHED → a.status = Status.PUBLISHED →
        u.role = Role.EDITOR ∧ action = "publish" ∧
        a.editor = some u.id) := by
  constructor
  · intro u existing action pts fv now a h hpub
    obtain ⟨hgate, -, ha⟩ :=
      (create_edit_saved_iff u existing action pts fv now a).mp h
    obtain ⟨hrole, -⟩ := (journalistGateDenies_eq_false u existing).mp hgate
    rw [ha, journalistSavedArticle_status] at hpub
    have hact := (journalistDecision_published_iff u
      (baseArticle u existing) action pts).mp hpub
    refine ⟨hrole, ?_, ?_, hact⟩
    · rw [ha, journalistSavedArticle_author]
    · rw [ha, journalistSavedArticle_publisher, hact,
        journalistDecision_published_publisher]
  · intro u article action fv now a h hne hpub
    obtain ⟨hgate, -, -, hcase⟩ :=
      (editor_saved_iff u article action fv now a).mp h
    obtain ⟨hrole, -⟩ := (editorGateDenies_eq_false u article).mp hgate
    rcases hcase with ⟨hact, ha⟩ | ⟨-, ha⟩
    · refine ⟨hrole, hact, ?_⟩
      rw [ha, Article.save_editor]
    · exfalso
      rw [ha, Article.save_status] at hpub
      exact hne hpub

/-- Witness for C2 (amended) at the independent-publish fixture. -/
theorem c2_amended_witness :
    sampleJournalist.role = Role.JOURNALIST ∧
    sampleIndependentPublished.author = sampleJournalist.id ∧
    sampleIndependentPublished.publisher = none ∧
    "publish_independent" = "publish_independent" :=
  c2_amended_publish_authority.1 sampleJournalist (some sampleDraft)
    "publish_independent" none true 5 sampleIndependentPublished
    (by decide) (by decide)

/-- C8: after every `Article.save`, `is_approved` holds exactly when the
status is PUBLISHED; a PUBLISHED save always has a publication date; and
a publication date that is already set is never overwritten by the model
save method. -/
theorem c8_save_approval_invariants (a : Article) (now : Nat) :
    ((a.save now).is_approved = true ↔
      (a.save now).status = Status.PUBLISHED) ∧
    ((a.save now).status = Status.PUBLISHED →
      ((a.save now).publication_date).isSome = true) ∧
    (∀ d, a.publication_date = some d →
      (a.save now).publication_date = some d) := by
  unfold Article.save
  by_cases h : a.status = Status.PUBLISHED
  · rw [if_pos h]
    refine ⟨by simp [h], ?_, ?_⟩
    · intro _
      cases hd : a.publication_date <;> simp [hd]
    · intro d hd
      simp [hd]
  · rw [if_neg h]
    refine ⟨by simp [h], ?_, ?_⟩
    · intro hh
      exact absurd hh h
    · intro d hd
      exact hd

/-- Witness for C8: a date already set survives the save. -/
theorem c8_witness :
    (({ sampleDraft with
        status := Status.PUBLISHED
        publication_date := some 3 } : Article).save 7).publication_date =
      some 3 :=
  (c8_save_approval_invariants
    { sampleDraft with
      status := Status.PUBLISHED
      publication_date := some 3 } 7).2.2 3 rfl

/-- C9: no article reachable through the mutating views ever has status
REJECTED — creation never writes it and both edit views preserve its
absence, even though REJECTED is declared among `STATUS_CHOICES` and the
journalist dashboard filters on it. -/
theorem c9_rejected_unreachable (a : Article) (h : Reachable a) :
    a.status ≠ Status.REJECTED := by
  induction h with
  | create u action pts now a h =>
      rcases create_edit_saved_status u none action pts true now a h with
        h1 | h1 | h1 <;> simp [h1]
  | jedit u old action pts now a hold h ih =>
      rcases create_edit_saved_status u (some old) action pts true now a h
        with h1 | h1 | h1 <;> simp [h1]
  | eedit u old action now a hold h ih =>
      rcases editor_saved_status u old action true now a h with h1 | h1
      · rw [h1]; exact ih
      · simp [h1]

/-- Witness for C9 at a freshly created draft. -/
theorem c9_witness : sampleCreatedDraft.status ≠ Status.REJECTED :=
  c9_rejected_unreachable sampleCreatedDraft
    (Reachable.create sampleJournalist "draft" none 5 sampleCreatedDraft
      (by decide))

/-- C6: every article mutation request is gated before any state change:
a journalist edit of an article they did not author, a journalist edit
of a PUBLISHED, REJECTED or AWAITING_REVIEW article, and an editor
review of an article whose publisher is not among their affiliations,
are all denied — the outcome carries no written row. -/
theorem c6_authorization_gating :
    (∀ (u : User) (art : Article) (action : String) (pts : Option Nat)
        (fv : Bool) (now : Nat),
      u.role = Role.JOURNALIST → art.author ≠ u.id →
      article_create_edit u (some art) action pts fv now =
        ViewOutcome.denied) ∧
    (∀ (u : User) (art : Article) (action : String) (pts : Option Nat)
        (fv : Bool) (now : Nat),
      u.role = Role.JOURNALIST →
      (art.status = Status.PUBLISHED ∨ art.status = Status.REJECTED ∨
        art.status = Status.AWAITING_REVIEW) →
      article_create_edit u (some art) action pts fv now =
        ViewOutcome.denied) ∧
    (∀ (u : User) (art : Article) (action : String) (fv : Bool)
        (now : Nat),
      u.role = Role.EDITOR →
      publisherAffiliated art.publisher u.publishers = false →
      article_editor u art action fv now = ViewOutcome.denied) := by
  refine ⟨?_, ?_, ?_⟩
  · intro u art action pts fv now _ hauthor
    have hg : journalistGateDenies u (some art) = true := by
      rcases Bool.eq_false_or_eq_true (journalistGateDenies u (some art))
        with ht | hf
      · exact ht
      · exfalso
        obtain ⟨-, hall⟩ :=
          (journalistGateDenies_eq_false u (some art)).mp hf
        exact hauthor (hall art rfl).1
    unfold article_create_edit
    rw [hg]
    rfl
  · intro u art action pts fv now _ hst
    have hg : journalistGateDenies u (some art) = true := by
      rcases Bool.eq_false_or_eq_true (journalistGateDenies u (some art))
        with ht | hf
      · exact ht
      · exfalso
        obtain ⟨-, hall⟩ :=
          (journalistGateDenies_eq_false u (some art)).mp hf
        have hdraft := (hall art rfl).2
        rcases hst with h | h | h <;> rw [h] at hdraft <;> cases hdraft
    unfold article_create_edit
    rw [hg]
    rfl
  · intro u art action fv now _ haff
    have hg : editorGateDenies u art = true := by
      rcases Bool.eq_false_or_eq_true (editorGateDenies u art) with ht | hf
      · exact ht
      · exfalso
        obtain ⟨-, p, hp, hmem⟩ := (editorGateDenies_eq_false u art).mp hf
        have ht2 : publisherAffiliated art.publisher u.publishers = true := by
          unfold publisherAffiliated
          rw [hp]
          simpa using hmem
        rw [ht2] at haff
        cases haff
    unfold article_editor
    rw [hg]
    rfl

/-- Witness for C6: a journalist edit of an article authored by user 2
is denied. -/
theorem c6_witness :
    article_create_edit sampleJournalist
        (some { sampleDraft with author := 2 }) "draft" none true 5 =
      ViewOutcome.denied :=
  c6_authorization_gating.1 sampleJournalist
    { sampleDraft with author := 2 } "draft" none true 5 rfl (by decide)

/-- With a JOURNALIST target the role guard of the journalist toggle is
inactive, leaving the common `get_or_create`/delete toggle. -/
theorem toggle_journalist_role_eq (subsJ : List (Nat × Nat)) (r j : Nat) :
    toggle_subscription_journalist subsJ r j Role.JOURNALIST =
      toggle_subscription_publisher subsJ r j := by
  unfold toggle_subscription_journalist toggle_subscription_publisher
  rw [if_neg (by simp)]

/-- The two journalist-subscription views implement the same toggle. -/
theorem subscribe_journalist_eq_toggle :
    subscribe_journalist = toggle_subscription_journalist := rfl

/-- The two publisher-subscription views implement the same toggle. -/
theorem subscribe_publisher_eq_toggle :
    subscribe_publisher = toggle_subscription_publisher := rfl

/-- Filtering out a pair that is not in the list changes nothing. -/
theorem filter_ne_of_not_mem (l : List (Nat × Nat)) (q : Nat × Nat)
    (h : q ∉ l) : l.filter (fun s => s ≠ q) = l :=
  List.filter_eq_self.mpr (fun x hx => by
    simp only [ne_eq, decide_not, Bool.not_eq_true', decide_eq_false_iff_not]
    intro hxq
    exact h (hxq ▸ hx))

/-- Toggling the same target twice restores the subscription relation. -/
theorem toggle_publisher_twice_mem (subsP : List (Nat × Nat)) (r p : Nat)
    (x : Nat × Nat) :
    x ∈ toggle_subscription_publisher
        (toggle_subscription_publisher subsP r p) r p ↔ x ∈ subsP := by
  unfold toggle_subscription_publisher
  by_cases h : (r, p) ∈ subsP
  · rw [if_pos h]
    have h2 : (r, p) ∉ subsP.filter (fun s => s ≠ (r, p)) := by
      intro hc
      have := List.mem_filter.mp hc
      simp at this
    rw [if_neg h2]
    constructor
    · intro hx
      rcases List.mem_cons.mp hx with rfl | hx2
      · exact h
      · exact (List.mem_filter.mp hx2).1
    · intro hx
      by_cases hxr : x = (r, p)
      · exact List.mem_cons.mpr (Or.inl hxr)
      · exact List.mem_cons.mpr
          (Or.inr (List.mem_filter.mpr ⟨hx, by simpa using hxr⟩))
  · rw [if_neg h]
    rw [if_pos (List.mem_cons_self (r, p) subsP)]
    rw [List.filter_cons]
    rw [if_neg (by simp)]
    rw [filter_ne_of_not_mem subsP (r, p) h]

/-- C7: the subscribe operations are toggles — a missing subscription is
created, an existing one is deleted — and applying the same toggle twice
restores the subscription relation; `subscribe_journalist` and
`subscribe_publisher` are the same toggles as `toggle_subscription`. -/
theorem c7_subscription_toggle_involution :
    (∀ (subsJ : List (Nat × Nat)) (r j : Nat),
      (r, j) ∉ subsJ →
      toggle_subscription_journalist subsJ r j Role.JOURNALIST =
        (r, j) :: subsJ) ∧
    (∀ (subsJ : List (Nat × Nat)) (r j : Nat),
      (r, j) ∈ subsJ →
      toggle_subscription_journalist subsJ r j Role.JOURNALIST =
        subsJ.filter (fun s => s ≠ (r, j))) ∧
    (∀ (subsJ : List (Nat × Nat)) (r j : Nat) (x : Nat × Nat),
      x ∈ toggle_subscription_journalist
          (toggle_subscription_journalist subsJ r j Role.JOURNALIST)
          r j Role.JOURNALIST ↔ x ∈ subsJ) ∧
    (∀ (subsP : List (Nat × Nat)) (r p : Nat) (x : Nat × Nat),
      x ∈ toggle_subscription_publisher
          (toggle_subscription_publisher subsP r p) r p ↔ x ∈ subsP) ∧
    subscribe_journalist = toggle_subscription_journalist ∧
    subscribe_publisher = toggle_subscription_publisher := by
  refine ⟨?_, ?_, ?_, toggle_publisher_twice_mem,
    subscribe_journalist_eq_toggle, subscribe_publisher_eq_toggle⟩
  · intro subsJ r j h
    rw [toggle_journalist_role_eq]
    unfold toggle_subscription_publisher
    rw [if_neg h]
  · intro subsJ r j h
    rw [toggle_journalist_role_eq]
    unfold toggle_subscription_publisher
    rw [if_pos h]
  · intro subsJ r j x
    rw [toggle_journalist_role_eq, toggle_journalist_role_eq]
    exact toggle_publisher_twice_mem subsJ r j x

/-- Witness for C7: subscribing when no subscription exists creates one. -/
theorem c7_witness :
    toggle_subscription_journalist [] 2 1 Role.JOURNALIST = [(2, 1)] :=
  c7_subscription_toggle_involution.1 [] 2 1 (by decide)

/-- C10: the toggles keep the subscription tables duplicate-free — at most
one row per (reader, journalist) and per (reader, publisher) pair — and a
journalist-subscription row created by either view targets a user whose
role is JOURNALIST. -/
theorem c10_subscription_invariants :
    (∀ (subsJ : List (Nat × Nat)) (r j : Nat) (role : Role),
      subsJ.Nodup → (toggle_subscription_journalist subsJ r j role).Nodup) ∧
    (∀ (subsP : List (Nat × Nat)) (r p : Nat),
      subsP.Nodup → (toggle_subscription_publisher subsP r p).Nodup) ∧
    (∀ (subsJ : List (Nat × Nat)) (r j : Nat) (role : Role),
      subsJ.Nodup → (subscribe_journalist subsJ r j role).Nodup) ∧
    (∀ (subsP : List (Nat × Nat)) (r p : Nat),
      subsP.Nodup → (subscribe_publisher subsP r p).Nodup) ∧
    (∀ (subsJ : List (Nat × Nat)) (r j : Nat) (role : Role) (x : Nat × Nat),
      x ∈ toggle_subscription_journalist subsJ r j role →
        x ∈ subsJ ∨ (x = (r, j) ∧ role = Role.JOURNALIST)) ∧
    (∀ (subsJ : List (Nat × Nat)) (r j : Nat) (role : Role) (x : Nat × Nat),
      x ∈ subscribe_journalist subsJ r j role →
        x ∈ subsJ ∨ (x = (r, j) ∧ role = Role.JOURNALIST)) := by
  have hpub : ∀ (subsP : List (Nat × Nat)) (r p : Nat),
      subsP.Nodup → (toggle_subscription_publisher subsP r p).Nodup := by
    intro subsP r p h
    unfold toggle_subscription_publisher
    split
    · exact h.filter _
    · next hm => exact List.nodup_cons.mpr ⟨hm, h⟩
  have hjour : ∀ (subsJ : List (Nat × Nat)) (r j : Nat) (role : Role),
      subsJ.Nodup → (toggle_subscription_journalist subsJ r j role).Nodup := by
    intro subsJ r j role h
    unfold toggle_subscription_journalist
    split
    · exact h
    · split
      · exact h.filter _
      · next hm => exact List.nodup_cons.mpr ⟨hm, h⟩
  have hrolemem : ∀ (subsJ : List (Nat × Nat)) (r j : Nat) (role : Role)
      (x : Nat × Nat),
      x ∈ toggle_subscription_journalist subsJ r j role →
        x ∈ subsJ ∨ (x = (r, j) ∧ role = Role.JOURNALIST) := by
    intro subsJ r j role x hx
    unfold toggle_subscription_journalist at hx
    split at hx
    · exact Or.inl hx
    · next hrole =>
      have hrole2 : role = Role.JOURNALIST := not_not.mp hrole
      split at hx
      · exact Or.inl (List.mem_filter.mp hx).1
      · rcases List.mem_cons.mp hx with rfl | hx2
        · exact Or.inr ⟨rfl, hrole2⟩
        · exact Or.inl hx2
  exact ⟨hjour, hpub,
    by rw [subscribe_journalist_eq_toggle]; exact hjour,
    by rw [subscribe_publisher_eq_toggle]; exact hpub,
    hrolemem,
    by rw [subscribe_journalist_eq_toggle]; exact hrolemem⟩

/-- Witness for C10: toggling on a duplicate-free table keeps it
duplicate-free. -/
theorem c10_witness :
    (toggle_subscription_journalist [(2, 1)] 2 1 Role.JOURNALIST).Nodup :=
  c10_subscription_invariants.1 [(2, 1)] 2 1 Role.JOURNALIST (by decide)

/-- C3: the subscribed feed contains exactly the PUBLISHED articles whose
author is a subscribed journalist or whose publisher is a subscribed
publisher (a two-source union), it is sorted by publication date
descending, and the subscription API endpoint computes the very same
query. -/
theorem c3_subscribed_feed_query :
    (∀ (articles : List Article) (sJ sP : List Nat) (a : Article),
      a ∈ subscribed_feed articles sJ sP ↔
        (a ∈ articles ∧ a.status = Status.PUBLISHED ∧
          (a.author ∈ sJ ∨ ∃ p, a.publisher = some p ∧ p ∈ sP))) ∧
    (∀ (articles : List Article) (sJ sP : List Nat),
      List.Sorted feedOrder (subscribed_feed articles sJ sP)) ∧
    api_get_queryset = subscribed_feed := by
  refine ⟨?_, ?_, rfl⟩
  · intro articles sJ sP a
    unfold subscribed_feed
    constructor
    · intro hmem
      have hf := (List.mem_insertionSort feedOrder).mp hmem
      obtain ⟨h1, h2⟩ := List.mem_filter.mp hf
      refine ⟨h1, ?_⟩
      unfold subscribedMatch at h2
      cases hp : a.publisher with
      | none =>
          rw [hp] at h2
          simp at h2
          exact ⟨h2.1, Or.inl h2.2⟩
      | some p =>
          rw [hp] at h2
          simp at h2
          rcases h2.2 with hh | hh
          · exact ⟨h2.1, Or.inl hh⟩
          · exact ⟨h2.1, Or.inr ⟨p, rfl, hh⟩⟩
    · rintro ⟨h1, h2, h3⟩
      refine (List.mem_insertionSort feedOrder).mpr
        (List.mem_filter.mpr ⟨h1, ?_⟩)
      unfold subscribedMatch
      cases hp : a.publisher with
      | none =>
          rcases h3 with hh | ⟨p, hpp, -⟩
          · simp [h2, hh]
          · rw [hp] at hpp; cases hpp
      | some p =>
          rcases h3 with hh | ⟨q, hpp, hq⟩
          · simp [h2, hh]
          · rw [hp] at hpp
            injection hpp with hpp
            subst hpp
            simp [h2, hq]
  · intro articles sJ sP
    exact List.sorted_insertionSort feedOrder _

/-- The post-save signal does nothing unless the saved instance is
PUBLISHED. -/
theorem fanout_empty_of_not_published (created : Bool) (a : Article)
    (subsJ subsP : List (Nat × Nat)) (email : Nat → String) (creds : Bool)
    (h : a.status ≠ Status.PUBLISHED) :
    handle_article_publication_and_sharing created a subsJ subsP email
        creds = { emails := [], socialPosted := false } := by
  unfold handle_article_publication_and_sharing
  rw [if_neg (by simp [h])]

/-- C5: notification fan-out runs only on the post-save signal of the
persisted row, and a save whose resulting status is not PUBLISHED never
sends a subscriber email or a social post — at the signal itself and
through both mutation pipelines. -/
theorem c5_no_fanout_unless_published :
    (∀ (created : Bool) (a : Article) (subsJ subsP : List (Nat × Nat))
        (email : Nat → String) (creds : Bool),
      a.status ≠ Status.PUBLISHED →
        handle_article_publication_and_sharing created a subsJ subsP email
            creds = { emails := [], socialPosted := false }) ∧
    (∀ (u : User) (existing : Option Article) (action : String)
        (pts : Option Nat) (fv : Bool) (now : Nat)
        (subsJ subsP : List (Nat × Nat)) (email : Nat → String)
        (creds : Bool) (a : Article),
      (createEditWithFanout u existing action pts fv now subsJ subsP email
          creds).1 = ViewOutcome.saved a →
      a.status ≠ Status.PUBLISHED →
        (createEditWithFanout u existing action pts fv now subsJ subsP email
            creds).2 = { emails := [], socialPosted := false }) ∧
    (∀ (u : User) (article : Article) (action : String) (fv : Bool)
        (now : Nat) (subsJ subsP : List (Nat × Nat)) (email : Nat → String)
        (creds : Bool) (a : Article),
      (editorWithFanout u article action fv now subsJ subsP email
          creds).1 = ViewOutcome.saved a →
      a.status ≠ Status.PUBLISHED →
        (editorWithFanout u article action fv now subsJ subsP email
            creds).2 = { emails := [], socialPosted := false }) := by
  refine ⟨fanout_empty_of_not_published, ?_, ?_⟩
  · intro u existing action pts fv now subsJ subsP email creds a h hne
    cases hview : article_create_edit u existing action pts fv now with
    | saved a2 =>
        have h1 : createEditWithFanout u existing action pts fv now subsJ
            subsP email creds =
            (ViewOutcome.saved a2,
             handle_article_publication_and_sharing existing.isNone a2
               subsJ subsP email creds) := by
          unfold createEditWithFanout
          rw [hview]
        rw [h1] at h ⊢
        have ha2 : a2 = a := by simpa using h
        subst ha2
        exact fanout_empty_of_not_published existing.isNone a2 subsJ subsP
          email creds hne
    | denied =>
        have h1 : createEditWithFanout u existing action pts fv now subsJ
            subsP email creds =
            (ViewOutcome.denied, { emails := [], socialPosted := false }) := by
          unfold createEditWithFanout
          rw [hview]
        rw [h1] at h
        exact absurd h (by simp)
    | noSave =>
        have h1 : createEditWithFanout u existing action pts fv now subsJ
            subsP email creds =
            (ViewOutcome.noSave, { emails := [], socialPosted := false }) := by
          unfold createEditWithFanout
          rw [hview]
        rw [h1] at h
        exact absurd h (by simp)
    | deleted =>
        have h1 : createEditWithFanout u existing action pts fv now subsJ
            subsP email creds =
            (ViewOutcome.deleted, { emails := [], socialPosted := false }) := by
          unfold createEditWithFanout
          rw [hview]
        rw [h1] at h
        exact absurd h (by simp)
  · intro u article action fv now subsJ subsP email creds a h hne
    cases hview : article_editor u article action fv now with
    | saved a2 =>
        have h1 : editorWithFanout u article action fv now subsJ subsP email
            creds =
            (ViewOutcome.saved a2,
             handle_article_publication_and_sharing false a2 subsJ subsP
               email creds) := by
          unfold editorWithFanout
          rw [hview]
        rw [h1] at h ⊢
        have ha2 : a2 = a := by simpa using h
        subst ha2
        exact fanout_empty_of_not_published false a2 subsJ subsP email creds
          hne
    | denied =>
        have h1 : editorWithFanout u article action fv now subsJ subsP email
            creds =
            (ViewOutcome.denied, { emails := [], socialPosted := false }) := by
          unfold editorWithFanout
          rw [hview]
        rw [h1] at h
        exact absurd h (by simp)
    | noSave =>
        have h1 : editorWithFanout u article action fv now subsJ subsP email
            creds =
            (ViewOutcome.noSave, { emails := [], socialPosted := false }) := by
          unfold editorWithFanout
          rw [hview]
        rw [h1] at h
        exact absurd h (by simp)
    | deleted =>
        have h1 : editorWithFanout u article action fv now subsJ subsP email
            creds =
            (ViewOutcome.deleted, { emails := [], socialPosted := false }) := by
          unfold editorWithFanout
          rw [hview]
        rw [h1] at h
        exact absurd h (by simp)

/-- Witness for C5: saving a draft triggers no email and no social post. -/
theorem c5_witness :
    handle_article_publication_and_sharing false sampleDraft [(2, 1)] []
        sampleEmailOf true = { emails := [], socialPosted := false } :=
  c5_no_fanout_unless_published.1 false sampleDraft [(2, 1)] []
    sampleEmailOf true (by decide)

/-- C4 counterexample: the claim says every operation that makes an
article PUBLISHED triggers subscriber email and a social post. But the
signal guard requires `not created` together with status PUBLISHED
(`signals.py` line 145): a journalist creating a new article directly as
PUBLISHED (`publish_independent` on the create URL) fires the signal with
`created = True`, so no email is sent to the existing subscriber of
author 1 and no social post is made, despite configured credentials. -/
theorem c4_counterexample :
    (createEditWithFanout sampleJournalist none "publish_independent" none
        true 5 [(2, 1)] [] sampleEmailOf true).1 =
      ViewOutcome.saved
        { sampleCreatedDraft with
          status := Status.PUBLISHED
          is_approved := true
          publication_date := some 5 } ∧
    (2, 1) ∈ ([(2, 1)] : List (Nat × Nat)) ∧
    (createEditWithFanout sampleJournalist none "publish_independent" none
        true 5 [(2, 1)] [] sampleEmailOf true).2.emails = [] ∧
    (createEditWithFanout sampleJournalist none "publish_independent" none
        true 5 [(2, 1)] [] sampleEmailOf true).2.socialPosted = false := by
  refine ⟨by decide, by decide, ?_, ?_⟩
  · rfl
  · rfl

/-- Membership in the de-duplicated recipient list for an instance with
publisher `p`: address of a subscriber of the author or of publisher
`p`. -/
theorem mem_recipientList_of_publisher (subsJ subsP : List (Nat × Nat))
    (email : Nat → String) (a : Article) (p : Nat)
    (hp : a.publisher = some p) (e : String) :
    e ∈ recipientList subsJ subsP email a ↔
      ((∃ s, s ∈ subsJ ∧ s.2 = a.author ∧ email s.1 = e) ∨
        (∃ s, s ∈ subsP ∧ s.2 = p ∧ email s.1 = e)) := by
  unfold recipientList journalistSubscriberEmails publisherSubscriberEmails
  rw [hp, List.mem_dedup, List.mem_append]
  constructor
  · rintro (h | h)
    · left
      obtain ⟨s, hs1, hs2⟩ := List.mem_map.mp h
      obtain ⟨hm, hf⟩ := List.mem_filter.mp hs1
      exact ⟨s, hm, by simpa using hf, hs2⟩
    · right
      obtain ⟨s, hs1, hs2⟩ := List.mem_map.mp h
      obtain ⟨hm, hf⟩ := List.mem_filter.mp hs1
      exact ⟨s, hm, by simpa using hf, hs2⟩
  · rintro (⟨s, hm, ha, he⟩ | ⟨s, hm, ha, he⟩)
    · exact Or.inl (List.mem_map.mpr
        ⟨s, List.mem_filter.mpr ⟨hm, by simpa using ha⟩, he⟩)
    · exact Or.inr (List.mem_map.mpr
        ⟨s, List.mem_filter.mpr ⟨hm, by simpa using ha⟩, he⟩)

/-- Evaluation of the signal handler on a non-created PUBLISHED instance
that has a publisher. -/
theorem handler_eval_some (created : Bool) (a : Article)
    (subsJ subsP : List (Nat × Nat)) (email : Nat → String) (creds : Bool)
    (p : Nat) (hc : created = false) (hs : a.status = Status.PUBLISHED)
    (hp : a.publisher = some p) :
    handle_article_publication_and_sharing created a subsJ subsP email
        creds =
      { emails := recipientList subsJ subsP email a
        socialPosted := creds } := by
  subst hc
  unfold handle_article_publication_and_sharing
  rw [if_pos ⟨rfl, hs⟩, hp]

/-- Evaluation of the signal handler on a non-created PUBLISHED instance
with publisher NULL: the AttributeError path. -/
theorem handler_eval_none (created : Bool) (a : Article)
    (subsJ subsP : List (Nat × Nat)) (email : Nat → String) (creds : Bool)
    (hc : created = false) (hs : a.status = Status.PUBLISHED)
    (hp : a.publisher = none) :
    handle_article_publication_and_sharing created a subsJ subsP email
        creds =
      if recipientList subsJ subsP email a ≠ [] ∨ creds = true then
        { emails := [], socialPosted := false,
          raisedAttributeError := true }
      else
        { emails := [], socialPosted := false } := by
  subst hc
  unfold handle_article_publication_and_sharing
  rw [if_pos ⟨rfl, hs⟩, hp]

/-- C4 (amended): whenever an already-persisted article is saved with
status PUBLISHED (the `not created` case of the signal) and the article
has a publisher, one notification email is sent to each address
subscribed to the author or to that publisher, with the combined
recipient list de-duplicated, and a social post is made exactly when
credentials are configured. When the published article has no publisher
the handler raises AttributeError on `instance.publisher.name` before
sending — whenever there is any recipient or credentials are
configured — and no email and no social post happen. On initial
creation nothing is sent at all. -/
theorem c4_amended_publication_fanout (created : Bool) (a : Article)
    (subsJ subsP : List (Nat × Nat)) (email : Nat → String) (creds : Bool)
    (hc : created = false) (hs : a.status = Status.PUBLISHED) :
    (∀ p, a.publisher = some p →
      ((∀ e, e ∈ (handle_article_publication_and_sharing created a subsJ
            subsP email creds).emails ↔
          ((∃ s, s ∈ subsJ ∧ s.2 = a.author ∧ email s.1 = e) ∨
            (∃ s, s ∈ subsP ∧ s.2 = p ∧ email s.1 = e))) ∧
        (handle_article_publication_and_sharing created a subsJ subsP email
            creds).emails.Nodup ∧
        (handle_article_publication_and_sharing created a subsJ subsP email
            creds).socialPosted = creds ∧
        (handle_article_publication_and_sharing created a subsJ subsP email
            creds).raisedAttributeError = false)) ∧
    (a.publisher = none →
      ((handle_article_publication_and_sharing created a subsJ subsP email
          creds).emails = [] ∧
        (handle_article_publication_and_sharing created a subsJ subsP email
            creds).socialPosted = false ∧
        ((handle_article_publication_and_sharing created a subsJ subsP
              email creds).raisedAttributeError = true ↔
          (recipientList subsJ subsP email a ≠ [] ∨ creds = true)))) := by
  constructor
  · intro p hp
    rw [handler_eval_some created a subsJ subsP email creds p hc hs hp]
    exact ⟨mem_recipientList_of_publisher subsJ subsP email a p hp,
      List.nodup_dedup _, rfl, rfl⟩
  · intro hp
    rw [handler_eval_none created a subsJ subsP email creds hc hs hp]
    by_cases h : recipientList subsJ subsP email a ≠ [] ∨ creds = true
    · rw [if_pos h]
      exact ⟨rfl, rfl, by simp [h]⟩
    · rw [if_neg h]
      exact ⟨rfl, rfl, by simp [h]⟩

/-- Witness for C4 (amended): republishing a publisher-backed article
notifies the subscribers and posts to X without error, while
republishing the publisher-less `sampleIndependentPublished` with a
subscriber takes the AttributeError path. -/
theorem c4_amended_witness :
    (handle_article_publication_and_sharing false
        { sampleAwaiting with
          status := Status.PUBLISHED
          editor := some 4
          is_approved := true
          publication_date := some 6 } [(2, 1)] [(9, 7)] sampleEmailOf
        true).socialPosted = true ∧
    (handle_article_publication_and_sharing false
        { sampleAwaiting with
          status := Status.PUBLISHED
          editor := some 4
          is_approved := true
          publication_date := some 6 } [(2, 1)] [(9, 7)] sampleEmailOf
        true).raisedAttributeError = false ∧
    (handle_article_publication_and_sharing false
        sampleIndependentPublished [(2, 1)] [] sampleEmailOf
        true).raisedAttributeError = true := by
  have h1 := (c4_amended_publication_fanout false
    { sampleAwaiting with
      status := Status.PUBLISHED
      editor := some 4
      is_approved := true
      publication_date := some 6 } [(2, 1)] [(9, 7)] sampleEmailOf true
    rfl rfl).1 7 rfl
  have h2 := (c4_amended_publication_fanout false
    sampleIndependentPublished [(2, 1)] [] sampleEmailOf true rfl rfl).2 rfl
  exact ⟨h1.2.2.1, h1.2.2.2, h2.2.2.mpr (Or.inl (by decide))⟩

end DailyNews
